import Mathlib

/-!
Shallow embedding of the `prefetch-experiment` repository
(`src/main.rs`, `src/runner.rs`) and verification of the claims about its
specification.

The embedding models:
* the derived-metric arithmetic of `run_benchmarks` (runner.rs lines 174-283),
  with `f64` values on the nonnegative operands that occur there modelled by
  exact rationals plus explicit `nan` / `inf` results for zero denominators
  (IEEE-754: `0/0 = NaN`, `x/0 = +inf` for `x > 0`);
* the counter-open phase (runner.rs lines 73-142) with Rust's drop semantics
  made explicit as acquire/release events;
* the measurement/report control flow (runner.rs lines 144-285) as an event
  trace parameterised by which OS calls succeed;
* the two benchmark loops `bench_sum_of_array_unrolled` (main.rs 177-191) and
  `bench_sum_of_array_with_stride` (main.rs 193-205), with `u8` wrapping
  arithmetic modelled by `% 256`, out-of-bounds indexing (a Rust panic)
  modelled by `Option.none`, and the possibly nonterminating stride loop
  modelled with explicit fuel.
-/

namespace PrefetchBench

/-- Value of an `f64` expression as it occurs in the reporter: a finite
nonnegative rational, NaN, or +infinity. -/
inductive F64 where
  | num (q : ℚ)
  | nan
  | inf
deriving DecidableEq

/-- IEEE-754 division for the nonnegative operands used by the reporter,
rationals standing in for the exactly representable doubles:
`0/0` is NaN, `x/0` with `x ≠ 0` is +infinity. -/
def fdiv (x y : ℚ) : F64 :=
  if y = 0 then (if x = 0 then F64.nan else F64.inf) else F64.num (x / y)

/-- Multiplication by the constant `100.0` (used for the percentage ratios);
NaN and infinity are absorbing. -/
def F64.mul100 : F64 → F64
  | F64.num q => F64.num (q * 100)
  | F64.nan => F64.nan
  | F64.inf => F64.inf

/-- Raw `u64` totals of the primary counter group (runner.rs lines 75-128),
as returned by `group.read()` (line 171). -/
structure Counts where
  task_clock : ℕ
  context_switches : ℕ
  cpu_migrations : ℕ
  page_faults : ℕ
  cycles : ℕ
  instructions : ℕ
  cache_accesses : ℕ
  l1_cache_loads : ℕ
  l1_cache_misses : ℕ
  l1_cache_prefetches : ℕ
deriving DecidableEq

/-- Raw `u64` totals of the secondary counter group (runner.rs lines 133-142),
as returned by `group_2.read()` (line 172). -/
structure Counts2 where
  l2_cache_accesses_from_dc_misses : ℕ
  l2_cache_hits_from_dc_misses : ℕ
deriving DecidableEq

/-- runner.rs line 174: `counts[&task_clock] as f64`. -/
def task_clock_nsec (c : Counts) : ℚ := c.task_clock

/-- runner.rs line 175: `counts[&task_clock] as f64 / 1_000_000.0`. -/
def task_clock_msec (c : Counts) : ℚ := (c.task_clock : ℚ) / 1000000

/-- runner.rs line 176: `counts[&task_clock] as f64 / 1_000_000.0`.
Note that despite its name this divides by 1e6 (milliseconds), exactly as
the source does. -/
def task_clock_s (c : Counts) : ℚ := (c.task_clock : ℚ) / 1000000

/-- runner.rs line 194: `counts[&context_switches] as f64 / task_clock_s`. -/
def context_switches_rate (c : Counts) : F64 :=
  fdiv (c.context_switches : ℚ) (task_clock_s c)

/-- runner.rs line 202: `counts[&cpu_migrations] as f64 / task_clock_s`. -/
def cpu_migrations_rate (c : Counts) : F64 :=
  fdiv (c.cpu_migrations : ℚ) (task_clock_s c)

/-- runner.rs line 210: `counts[&page_faults] as f64 / task_clock_s`. -/
def page_faults_rate (c : Counts) : F64 :=
  fdiv (c.page_faults : ℚ) (task_clock_s c)

/-- runner.rs line 220: `counts[&cycles] as f64 / task_clock_nsec`. -/
def cycles_ghz (c : Counts) : F64 :=
  fdiv (c.cycles : ℚ) (task_clock_nsec c)

/-- runner.rs line 228: `counts[&instructions] as f64 / counts[&cycles] as f64`. -/
def instructions_per_cycle (c : Counts) : F64 :=
  fdiv (c.instructions : ℚ) (c.cycles : ℚ)

/-- runner.rs line 254:
`(counts[&l1_cache_misses] as f64 / counts[&l1_cache_loads] as f64) * 100.0`. -/
def l1_miss_ratio (c : Counts) : F64 :=
  (fdiv (c.l1_cache_misses : ℚ) (c.l1_cache_loads : ℚ)).mul100

/-- runner.rs lines 279-281:
`(counts_2[&l2_cache_hits_from_dc_misses] as f64 /
  counts_2[&l2_cache_accesses_from_dc_misses] as f64) * 100.0`. -/
def l2_hit_ratio (c2 : Counts2) : F64 :=
  (fdiv (c2.l2_cache_hits_from_dc_misses : ℚ)
    (c2.l2_cache_accesses_from_dc_misses : ℚ)).mul100

/-- One printed metric line: the raw count column, the metric name, and the
derived value in the `info` column (`none` when the source formats an empty
string there). -/
structure ReportLine where
  count : ℚ
  metric : String
  info : Option F64
deriving DecidableEq

/-- The metric lines of the report, in the order the source prints them
(runner.rs lines 181-283). -/
def report_lines (c : Counts) (c2 : Counts2) : List ReportLine :=
  [⟨task_clock_msec c, "task-clock", none⟩,
   ⟨(c.context_switches : ℚ), "context-switches", some (context_switches_rate c)⟩,
   ⟨(c.cpu_migrations : ℚ), "cpu-migrations", some (cpu_migrations_rate c)⟩,
   ⟨(c.page_faults : ℚ), "page-faults", some (page_faults_rate c)⟩,
   ⟨(c.cycles : ℚ), "cycles", some (cycles_ghz c)⟩,
   ⟨(c.instructions : ℚ), "instructions", some (instructions_per_cycle c)⟩,
   ⟨(c.cache_accesses : ℚ), "cache accesses", none⟩,
   ⟨(c.l1_cache_loads : ℚ), "L1D cache loads", none⟩,
   ⟨(c.l1_cache_misses : ℚ), "L1D cache misses", some (l1_miss_ratio c)⟩,
   ⟨(c.l1_cache_prefetches : ℚ), "L1D cache prefetches", none⟩,
   ⟨(c2.l2_cache_accesses_from_dc_misses : ℚ), "L2 accesses from L1 misses", none⟩,
   ⟨(c2.l2_cache_hits_from_dc_misses : ℚ), "L2 hits from L1 misses", some (l2_hit_ratio c2)⟩]

/-- The report of a successful `run_benchmarks` call: the header names the
benchmark (runner.rs line 179) and the metric lines follow.  The `iterations`
parameter is declared by the source (runner.rs line 65) and, exactly as in the
source, does not occur in the body. -/
def run_benchmarks_report (name : String) (iterations : ℕ) (c : Counts)
    (c2 : Counts2) : String × List ReportLine :=
  (name, report_lines c c2)

/-- Parameter list of `run_benchmarks` as declared in runner.rs line 65:
`run_benchmarks(name: &str, callback: impl Fn(), iterations: usize)`. -/
def run_benchmarks_param_names : List String := ["name", "callback", "iterations"]

/-- Number of arguments passed at every `run_benchmarks` call site in
main.rs (e.g. lines 304-313: name, closure, item count, optional
throughput denominator). -/
def main_call_site_arg_count : ℕ := 4

/-- Per-second rate formula as the specification states it:
`raw_count / (task_clock_ns / 1e9)`. -/
def spec_rate_per_sec (raw_count task_clock_ns : ℚ) : ℚ :=
  raw_count / (task_clock_ns / 1000000000)

/-- All-zero primary readings (every counter read back 0). -/
def zeroCounts : Counts := ⟨0, 0, 0, 0, 0, 0, 0, 0, 0, 0⟩

/-- All-zero secondary readings. -/
def zeroCounts2 : Counts2 := ⟨0, 0⟩

/-- Concrete readings exhibiting the rate computation: the task clock read
2e9 ns (two seconds) and 10 context switches occurred. -/
def exCountsRate : Counts := ⟨2000000000, 10, 0, 0, 0, 0, 0, 0, 0, 0⟩

/-- Concrete readings with nonzero denominators for the derived-metric
formulas: 2 ns task clock, 4 cycles, 8 instructions, 5 L1 loads, 1 miss. -/
def exCounts : Counts := ⟨2, 0, 0, 0, 4, 8, 0, 5, 1, 0⟩

/-- Hardware event ids of the `perf_event` crate, as reproduced in the
source's reference comment (runner.rs lines 6-18). -/
inductive Hardware where
  | CPU_CYCLES | INSTRUCTIONS | CACHE_REFERENCES | CACHE_MISSES
  | BRANCH_INSTRUCTIONS | BRANCH_MISSES | BUS_CYCLES
  | STALLED_CYCLES_FRONTEND | STALLED_CYCLES_BACKEND | REF_CPU_CYCLES
deriving DecidableEq

/-- Software event ids (runner.rs lines 20-32). -/
inductive Software where
  | CPU_CLOCK | TASK_CLOCK | PAGE_FAULTS | CONTEXT_SWITCHES | CPU_MIGRATIONS
  | PAGE_FAULTS_MIN | PAGE_FAULTS_MAJ | ALIGNMENT_FAULTS | EMULATION_FAULTS
  | DUMMY
deriving DecidableEq

/-- Cache selectors (runner.rs lines 40-49). -/
inductive WhichCache where
  | L1D | L1I | LL | DTLB | ITLB | BPU | NODE
deriving DecidableEq

/-- Cache operations (runner.rs lines 51-56). -/
inductive CacheOp where
  | READ | WRITE | PREFETCH
deriving DecidableEq

/-- Cache result kinds (runner.rs lines 58-62). -/
inductive CacheResult where
  | ACCESS | MISS
deriving DecidableEq

/-- Cache event tuple (runner.rs lines 34-38). -/
structure Cache where
  which : WhichCache
  operation : CacheOp
  result : CacheResult
deriving DecidableEq

/-- What one `Builder` is asked to count: a software event, a hardware event,
a cache tuple, or a raw hardware-specific config. -/
inductive CounterKind where
  | software (s : Software)
  | hardware (h : Hardware)
  | cache (c : Cache)
  | raw (config : ℕ)
deriving DecidableEq

/-- True on the hardware and software (non-cache, non-raw) named kinds. -/
def CounterKind.isNamedNonCache : CounterKind → Bool
  | .software _ => true
  | .hardware _ => true
  | _ => false

/-- True on the raw hardware-specific kinds. -/
def CounterKind.isRaw : CounterKind → Bool
  | .raw _ => true
  | _ => false

/-- The twelve `Builder::new()...build()` calls of the open phase in source
order, each paired with the group it registers into: `1` for `group`
(runner.rs lines 75-128) and `2` for `group_2` (lines 135-142). -/
def builder_kinds : List (CounterKind × ℕ) :=
  [(.software .TASK_CLOCK, 1),
   (.software .CONTEXT_SWITCHES, 1),
   (.software .CPU_MIGRATIONS, 1),
   (.software .PAGE_FAULTS, 1),
   (.hardware .CPU_CYCLES, 1),
   (.hardware .INSTRUCTIONS, 1),
   (.hardware .CACHE_REFERENCES, 1),
   (.cache ⟨.L1D, .READ, .ACCESS⟩, 1),
   (.cache ⟨.L1D, .READ, .MISS⟩, 1),
   (.cache ⟨.L1D, .PREFETCH, .ACCESS⟩, 1),
   (.raw 0xc860, 2),
   (.raw 0x7064, 2)]

/-- The full requested counter set, in open order. -/
def requested_kinds : List CounterKind := builder_kinds.map Prod.fst

/-- Counters registered into the primary group. -/
def group1_kinds : List CounterKind :=
  (builder_kinds.filter (fun p => p.2 == 1)).map Prod.fst

/-- Counters registered into the secondary group. -/
def group2_kinds : List CounterKind :=
  (builder_kinds.filter (fun p => p.2 == 2)).map Prod.fst

/-- Events of the measurement/report phase of `run_benchmarks`
(runner.rs lines 144-285). -/
inductive Ev where
  | enable (g : ℕ)
  | workload
  | disable (g : ℕ)
  | readGroup (g : ℕ)
  | printLine (n : ℕ)
deriving DecidableEq

/-- Which OS calls of the measurement/report phase succeed.  The counter
readings themselves are carried by `Counts`/`Counts2` in the numeric model;
the trace model only records ordering, so it is parameterised by the
success flags alone. -/
structure MeasureEnv where
  enable1Ok : Bool
  disable1Ok : Bool
  enable2Ok : Bool
  disable2Ok : Bool
  read1Ok : Bool
  read2Ok : Bool
deriving DecidableEq

/-- The sixteen `println!` statements of the report (runner.rs
lines 178-283), as print events. -/
def printEvents : List Ev := (List.range 16).map Ev.printLine

/-- Event trace of runner.rs lines 144-285, starting at `group.enable()?`:
each fallible step is attempted in source order and, on failure, the `?`
operator returns the error immediately (trace ends, flag `false`).  All
sixteen `println!` calls come after both reads; on success the flag is
`true` (`Ok(())`). -/
def runFromMeasure (env : MeasureEnv) : List Ev × Bool :=
  if env.enable1Ok = false then
    ([Ev.enable 1], false)
  else if env.disable1Ok = false then
    ([Ev.enable 1, Ev.workload, Ev.disable 1], false)
  else if env.enable2Ok = false then
    ([Ev.enable 1, Ev.workload, Ev.disable 1, Ev.enable 2], false)
  else if env.disable2Ok = false then
    ([Ev.enable 1, Ev.workload, Ev.disable 1,
      Ev.enable 2, Ev.workload, Ev.disable 2], false)
  else if env.read1Ok = false then
    ([Ev.enable 1, Ev.workload, Ev.disable 1,
      Ev.enable 2, Ev.workload, Ev.disable 2, Ev.readGroup 1], false)
  else if env.read2Ok = false then
    ([Ev.enable 1, Ev.workload, Ev.disable 1,
      Ev.enable 2, Ev.workload, Ev.disable 2,
      Ev.readGroup 1, Ev.readGroup 2], false)
  else
    ([Ev.enable 1, Ev.workload, Ev.disable 1,
      Ev.enable 2, Ev.workload, Ev.disable 2,
      Ev.readGroup 1, Ev.readGroup 2] ++ printEvents, true)

/-- True on enable/workload/disable events. -/
def Ev.isMeasure : Ev → Bool
  | .enable _ => true
  | .workload => true
  | .disable _ => true
  | _ => false

/-- True on print events. -/
def Ev.isPrint : Ev → Bool
  | .printLine _ => true
  | _ => false

/-- Environment in which every OS call of the measurement phase succeeds. -/
def envAllOk : MeasureEnv := ⟨true, true, true, true, true, true⟩

/-- Environment in which the final `group.read()` fails. -/
def envReadFail : MeasureEnv := ⟨true, true, true, true, false, true⟩

/-- Resource events of the open phase: acquiring and releasing the OS
counter resource of the i-th `Builder::build()` call. -/
inductive REv where
  | acquire (i : ℕ)
  | release (i : ℕ)
deriving DecidableEq

/-- Open phase over the remaining build steps.  `ok i` says whether the
`i`-th `build()` call succeeds; `opened` holds the indices of the counters
already built in this attempt, most recent first (Rust drops locals in
reverse declaration order).  On a failure the `?` operator returns early and
every owned `Counter` local built so far is dropped, releasing its OS
resource; the result records the failing index. -/
def open_go (ok : ℕ → Bool) : List ℕ → List ℕ → List REv × Option ℕ
  | [], _ => ([], none)
  | i :: rest, opened =>
    if ok i then
      let r := open_go ok rest (i :: opened)
      (REv.acquire i :: r.1, r.2)
    else
      (opened.map REv.release, some i)

/-- The whole open phase of `run_benchmarks` (runner.rs lines 73-142):
twelve build steps, none opened yet. -/
def open_phase (ok : ℕ → Bool) : List REv × Option ℕ :=
  open_go ok (List.range 12) []

/-- Indices acquired in a resource trace. -/
def acquired : List REv → List ℕ
  | [] => []
  | REv.acquire i :: t => i :: acquired t
  | REv.release _ :: t => acquired t

/-- Indices released in a resource trace. -/
def released : List REv → List ℕ
  | [] => []
  | REv.acquire _ :: t => released t
  | REv.release i :: t => i :: released t

/-- Success predicate making the sixth `build()` call fail (after five
successful opens). -/
def okUpTo5 : ℕ → Bool := fun i => decide (i < 5)

/-- Loop of `bench_sum_of_array_unrolled` (main.rs lines 183-188):
`while i < array.len() { sum_1 += array[i] & x; sum_2 += array[i + 1] & x;
i += 2; }`.  `u8` wrapping addition is `% 256`; an out-of-bounds index is a
Rust panic, modelled as `none`. -/
def sum_unrolled_go (xs : List ℕ) (x : ℕ) (i s1 s2 : ℕ) : Option (ℕ × ℕ) :=
  if i < xs.length then
    match xs[i]?, xs[i + 1]? with
    | some a, some b =>
        sum_unrolled_go xs x (i + 2) ((s1 + (a &&& x)) % 256)
          ((s2 + (b &&& x)) % 256)
    | _, _ => none
  else
    some (s1, s2)
termination_by xs.length - i
decreasing_by omega

/-- main.rs lines 177-191, `bench_sum_of_array_unrolled`: `x = black_box(3)`,
both partial sums start at 0, and the result is `sum_1 + sum_2` (wrapping). -/
def bench_sum_of_array_unrolled (xs : List ℕ) : Option ℕ :=
  (sum_unrolled_go xs 3 0 0 0).map (fun p => (p.1 + p.2) % 256)

/-- Loop of `bench_sum_of_array_with_stride` (main.rs lines 198-202):
`while i < N { sum += array[i] & x; i += stride; }`, run with explicit fuel
(number of loop iterations still allowed); `none` means the loop has not
terminated within the fuel.  The index is always in bounds (`i < N`). -/
def sum_stride_go (xs : List ℕ) (x stride : ℕ) : ℕ → ℕ → ℕ → Option ℕ
  | 0, _, _ => none
  | fuel + 1, i, s =>
    if i < xs.length then
      sum_stride_go xs x stride fuel (i + stride) ((s + (xs.getD i 0 &&& x)) % 256)
    else
      some s

/-- main.rs lines 193-205, `bench_sum_of_array_with_stride`:
`x = black_box(3)`, `sum = 0`, `i = 0`. -/
def bench_sum_of_array_with_stride (xs : List ℕ) (stride fuel : ℕ) : Option ℕ :=
  sum_stride_go xs 3 stride fuel 0 0

/-- Division by a zero denominator yields NaN or +infinity, never a finite
number. -/
theorem fdiv_zero_den (x y : ℚ) (hy : y = 0) :
    fdiv x y = F64.nan ∨ fdiv x y = F64.inf := by
  subst hy
  unfold fdiv
  by_cases hx : x = 0 <;> simp [hx]

/-- `mul100` preserves NaN and infinity. -/
theorem F64.mul100_nan_or_inf {v : F64} (h : v = F64.nan ∨ v = F64.inf) :
    v.mul100 = F64.nan ∨ v.mul100 = F64.inf := by
  rcases h with h | h <;> subst h <;> simp [F64.mul100]

/-- C1 counterexample: on all-zero readings (task_clock = 0, cycles = 0,
L1 loads = 0, L2 accesses = 0) the reporter's derived values are NaN — not a
defined placeholder such as 0 — so NaN propagates into the printed report. -/
theorem zero_denominator_prints_nan :
    context_switches_rate zeroCounts = F64.nan
    ∧ instructions_per_cycle zeroCounts = F64.nan
    ∧ l1_miss_ratio zeroCounts = F64.nan
    ∧ l2_hit_ratio zeroCounts2 = F64.nan
    ∧ F64.nan ≠ F64.num 0 := by
  refine ⟨?_, ?_, ?_, ?_, by simp⟩ <;>
    norm_num [context_switches_rate, instructions_per_cycle, l1_miss_ratio,
      l2_hit_ratio, fdiv, F64.mul100, task_clock_s, zeroCounts, zeroCounts2]

/-- C1 (amended): whenever a derived-metric denominator is zero the reporter
performs the `f64` division anyway; the value it prints is NaN (for a zero
numerator) or +infinity (for a nonzero one), never a finite placeholder.
The division itself cannot crash, and the report is still produced. -/
theorem zero_denominator_yields_nan_or_inf (c : Counts) (c2 : Counts2) :
    (c.task_clock = 0 →
      (context_switches_rate c = F64.nan ∨ context_switches_rate c = F64.inf)
      ∧ (cpu_migrations_rate c = F64.nan ∨ cpu_migrations_rate c = F64.inf)
      ∧ (page_faults_rate c = F64.nan ∨ page_faults_rate c = F64.inf)
      ∧ (cycles_ghz c = F64.nan ∨ cycles_ghz c = F64.inf))
    ∧ (c.cycles = 0 →
      instructions_per_cycle c = F64.nan ∨ instructions_per_cycle c = F64.inf)
    ∧ (c.l1_cache_loads = 0 →
      l1_miss_ratio c = F64.nan ∨ l1_miss_ratio c = F64.inf)
    ∧ (c2.l2_cache_accesses_from_dc_misses = 0 →
      l2_hit_ratio c2 = F64.nan ∨ l2_hit_ratio c2 = F64.inf) := by
  refine ⟨fun h => ?_, fun h => ?_, fun h => ?_, fun h => ?_⟩
  · have hs : task_clock_s c = 0 := by simp [task_clock_s, h]
    have hn : task_clock_nsec c = 0 := by simp [task_clock_nsec, h]
    exact ⟨fdiv_zero_den _ _ hs, fdiv_zero_den _ _ hs, fdiv_zero_den _ _ hs,
      fdiv_zero_den _ _ hn⟩
  · exact fdiv_zero_den _ _ (by simp [h])
  · exact F64.mul100_nan_or_inf (fdiv_zero_den _ _ (by simp [h]))
  · exact F64.mul100_nan_or_inf (fdiv_zero_den _ _ (by simp [h]))

/-- Witness for `zero_denominator_yields_nan_or_inf` at the all-zero
readings. -/
theorem zero_denominator_yields_nan_or_inf_witness :
    (zeroCounts.task_clock = 0 ∧ zeroCounts.cycles = 0
      ∧ zeroCounts.l1_cache_loads = 0
      ∧ zeroCounts2.l2_cache_accesses_from_dc_misses = 0)
    ∧ (context_switches_rate zeroCounts = F64.nan
        ∨ context_switches_rate zeroCounts = F64.inf)
    ∧ (instructions_per_cycle zeroCounts = F64.nan
        ∨ instructions_per_cycle zeroCounts = F64.inf)
    ∧ (l1_miss_ratio zeroCounts = F64.nan ∨ l1_miss_ratio zeroCounts = F64.inf)
    ∧ (l2_hit_ratio zeroCounts2 = F64.nan ∨ l2_hit_ratio zeroCounts2 = F64.inf) := by
  have h := zero_denominator_yields_nan_or_inf zeroCounts zeroCounts2
  exact ⟨⟨rfl, rfl, rfl, rfl⟩, (h.1 rfl).1, h.2.1 rfl, h.2.2.1 rfl, h.2.2.2 rfl⟩

/-- C2: with a task clock of 2e9 ns (two seconds) and 10 context switches,
the code prints a rate of 10/2000 = 0.005 (it divides by `task_clock_s`,
which runner.rs line 176 computes as nanoseconds / 1e6, i.e. milliseconds),
whereas the specification's formula `raw_count / (task_clock_ns / 1e9)`
gives 5 per second: the printed rate is 1000 times too small. -/
theorem rate_uses_millisecond_denominator :
    context_switches_rate exCountsRate = F64.num (1 / 200)
    ∧ spec_rate_per_sec 10 2000000000 = 5
    ∧ F64.num ((1 : ℚ) / 200) ≠ F64.num 5 := by
  have h1 : task_clock_s exCountsRate = 2000 := by
    norm_num [task_clock_s, exCountsRate]
  refine ⟨?_, by norm_num [spec_rate_per_sec], by norm_num⟩
  rw [context_switches_rate, h1]
  norm_num [fdiv, exCountsRate]

/-- C7: runner.rs line 65 declares `run_benchmarks(name, callback,
iterations)` — there are no `expected_item_count` or
`expected_throughput_denominator` parameters, and the three-parameter
declaration does not match the four arguments passed at every main.rs call
site.  The one hint parameter that is declared, `iterations`, is purely
cosmetic: two invocations differing only in it produce identical reports. -/
theorem hint_arguments_mismatch_and_cosmetic :
    "expected_item_count" ∉ run_benchmarks_param_names
    ∧ "expected_throughput_denominator" ∉ run_benchmarks_param_names
    ∧ main_call_site_arg_count ≠ run_benchmarks_param_names.length
    ∧ ∀ (name : String) (c : Counts) (c2 : Counts2) (i j : ℕ),
        run_benchmarks_report name i c c2 = run_benchmarks_report name j c c2 := by
  exact ⟨by decide, by decide, by decide, fun name c c2 i j => rfl⟩

/-- C8: the open phase partitions the requested counters by the fixed
policy: every hardware/software (non-cache, non-raw) named counter is in the
primary group, the raw configs 0xc860 and 0x7064 form exactly the secondary
group, the groups are disjoint, and together they cover the requested set. -/
theorem counter_partition_policy :
    (∀ k ∈ requested_kinds, k.isNamedNonCache = true → k ∈ group1_kinds)
    ∧ (∀ k ∈ requested_kinds, k.isRaw = true → k ∈ group2_kinds)
    ∧ group2_kinds = [.raw 0xc860, .raw 0x7064]
    ∧ (∀ k ∈ group1_kinds, k ∉ group2_kinds)
    ∧ requested_kinds = group1_kinds ++ group2_kinds := by
  decide

/-- C3: once the measurement phase is reached and the enable/disable calls
succeed, the groups are processed strictly in order — enable group 1, one
workload invocation, disable group 1, then the same for group 2 — so the
workload runs exactly twice; and whenever the reads also succeed, both reads
come after both disables and before any printing. -/
theorem measurement_trace_in_order (env : MeasureEnv)
    (h1 : env.enable1Ok = true) (h2 : env.disable1Ok = true)
    (h3 : env.enable2Ok = true) (h4 : env.disable2Ok = true) :
    (runFromMeasure env).1.filter Ev.isMeasure =
      [Ev.enable 1, Ev.workload, Ev.disable 1,
       Ev.enable 2, Ev.workload, Ev.disable 2]
    ∧ (runFromMeasure env).1.count Ev.workload = 2
    ∧ (env.read1Ok = true → env.read2Ok = true →
        (runFromMeasure env).1 =
          [Ev.enable 1, Ev.workload, Ev.disable 1,
           Ev.enable 2, Ev.workload, Ev.disable 2,
           Ev.readGroup 1, Ev.readGroup 2] ++ printEvents) := by
  obtain ⟨e1, d1, e2, d2, r1, r2⟩ := env
  simp only at h1 h2 h3 h4
  subst h1 h2 h3 h4
  cases r1 <;> cases r2 <;> refine ⟨by decide, by decide, ?_⟩ <;> decide

/-- Witness for `measurement_trace_in_order` in the all-successful
environment. -/
theorem measurement_trace_in_order_witness :
    (envAllOk.enable1Ok = true ∧ envAllOk.disable1Ok = true
      ∧ envAllOk.enable2Ok = true ∧ envAllOk.disable2Ok = true)
    ∧ (runFromMeasure envAllOk).1.filter Ev.isMeasure =
        [Ev.enable 1, Ev.workload, Ev.disable 1,
         Ev.enable 2, Ev.workload, Ev.disable 2]
    ∧ (runFromMeasure envAllOk).1.count Ev.workload = 2 := by
  have h := measurement_trace_in_order envAllOk rfl rfl rfl rfl
  exact ⟨⟨rfl, rfl, rfl, rfl⟩, h.1, h.2.1⟩

/-- C5: if the groups were enabled and disabled successfully but one of the
final reads fails, `run_benchmarks` returns an error and not a single line
of the report is printed. -/
theorem read_failure_prints_nothing (env : MeasureEnv)
    (h1 : env.enable1Ok = true) (h2 : env.disable1Ok = true)
    (h3 : env.enable2Ok = true) (h4 : env.disable2Ok = true)
    (h5 : env.read1Ok = false ∨ env.read2Ok = false) :
    (runFromMeasure env).2 = false
    ∧ (runFromMeasure env).1.filter Ev.isPrint = [] := by
  obtain ⟨e1, d1, e2, d2, r1, r2⟩ := env
  simp only at h1 h2 h3 h4 h5
  subst h1 h2 h3 h4
  cases r1 <;> cases r2 <;>
    first
      | exact ⟨by decide, by decide⟩
      | simp_all

/-- Witness for `read_failure_prints_nothing` with the first read failing. -/
theorem read_failure_prints_nothing_witness :
    (envReadFail.enable1Ok = true ∧ envReadFail.disable1Ok = true
      ∧ envReadFail.enable2Ok = true ∧ envReadFail.disable2Ok = true
      ∧ envReadFail.read1Ok = false)
    ∧ (runFromMeasure envReadFail).2 = false
    ∧ (runFromMeasure envReadFail).1.filter Ev.isPrint = [] := by
  have h := read_failure_prints_nothing envReadFail rfl rfl rfl rfl (Or.inl rfl)
  exact ⟨⟨rfl, rfl, rfl, rfl, rfl⟩, h.1, h.2⟩

/-- A trace consisting only of release events acquires nothing. -/
theorem acquired_map_release (l : List ℕ) : acquired (l.map REv.release) = [] := by
  induction l with
  | nil => rfl
  | cons i t ih => simpa [acquired] using ih

/-- A trace consisting only of release events releases exactly its list. -/
theorem released_map_release (l : List ℕ) : released (l.map REv.release) = l := by
  induction l with
  | nil => rfl
  | cons i t ih => simpa [released] using ih

/-- Invariant of the open loop: on a failure, the released indices are a
permutation of the previously opened ones plus everything acquired during
this call. -/
theorem open_go_perm (ok : ℕ → Bool) :
    ∀ (l opened : List ℕ) (k : ℕ), (open_go ok l opened).2 = some k →
      (released (open_go ok l opened).1).Perm
        (opened ++ acquired (open_go ok l opened).1) := by
  intro l
  induction l with
  | nil => intro opened k h; simp [open_go] at h
  | cons i rest ih =>
    intro opened k h
    by_cases hi : ok i = true
    · have hrec := ih (i :: opened) k (by simpa [open_go, hi] using h)
      have hfold : (open_go ok (i :: rest) opened).1 =
          REv.acquire i :: (open_go ok rest (i :: opened)).1 := by
        simp [open_go, hi]
      rw [hfold]
      simp only [released, acquired]
      exact hrec.trans List.perm_middle.symm
    · have hfold : (open_go ok (i :: rest) opened).1 = opened.map REv.release := by
        simp [open_go, hi]
      rw [hfold, released_map_release, acquired_map_release]
      simp

/-- C4: if the `i`-th `Builder::build()` call of the open phase fails, every
counter resource acquired earlier in the attempt is released (dropped) before
the error is surfaced: the multiset of released indices equals the multiset
of acquired ones, so no OS counter resource leaks on the failure path. -/
theorem open_failure_releases_all (ok : ℕ → Bool) (k : ℕ)
    (h : (open_phase ok).2 = some k) :
    (released (open_phase ok).1).Perm (acquired (open_phase ok).1) := by
  simpa using open_go_perm ok (List.range 12) [] k h

/-- Witness for `open_failure_releases_all`: the sixth build fails after five
successful opens. -/
theorem open_failure_releases_all_witness :
    (open_phase okUpTo5).2 = some 5
    ∧ (released (open_phase okUpTo5).1).Perm (acquired (open_phase okUpTo5).1) :=
  ⟨by decide, open_failure_releases_all okUpTo5 5 (by decide)⟩

/-- C6: the derived metrics match the specification's formulas — displayed
task-clock (ms) is `raw_task_clock_ns / 1e6`, frequency (GHz) is
`raw_cycles / task_clock_ns`, instructions-per-cycle is
`raw_instructions / raw_cycles`, and the L1 miss ratio is
`raw_misses / raw_loads * 100` — whenever the denominators are nonzero. -/
theorem derived_metric_formulas (c : Counts) :
    task_clock_msec c = (c.task_clock : ℚ) / 1000000
    ∧ ((c.task_clock : ℚ) ≠ 0 →
      cycles_ghz c = F64.num ((c.cycles : ℚ) / (c.task_clock : ℚ)))
    ∧ ((c.cycles : ℚ) ≠ 0 →
      instructions_per_cycle c =
        F64.num ((c.instructions : ℚ) / (c.cycles : ℚ)))
    ∧ ((c.l1_cache_loads : ℚ) ≠ 0 →
      l1_miss_ratio c =
        F64.num ((c.l1_cache_misses : ℚ) / (c.l1_cache_loads : ℚ) * 100)) := by
  refine ⟨rfl, fun h => ?_, fun h => ?_, fun h => ?_⟩
  · simp [cycles_ghz, task_clock_nsec, fdiv, h]
  · simp [instructions_per_cycle, fdiv, h]
  · simp [l1_miss_ratio, fdiv, F64.mul100, h]

/-- Witness for `derived_metric_formulas` on concrete nonzero readings. -/
theorem derived_metric_formulas_witness :
    ((exCounts.task_clock : ℚ) ≠ 0 ∧ (exCounts.cycles : ℚ) ≠ 0
      ∧ (exCounts.l1_cache_loads : ℚ) ≠ 0)
    ∧ task_clock_msec exCounts = (exCounts.task_clock : ℚ) / 1000000
    ∧ cycles_ghz exCounts = F64.num ((exCounts.cycles : ℚ) / (exCounts.task_clock : ℚ))
    ∧ instructions_per_cycle exCounts =
        F64.num ((exCounts.instructions : ℚ) / (exCounts.cycles : ℚ))
    ∧ l1_miss_ratio exCounts =
        F64.num ((exCounts.l1_cache_misses : ℚ) / (exCounts.l1_cache_loads : ℚ) * 100) := by
  have hne1 : (exCounts.task_clock : ℚ) ≠ 0 := by norm_num [exCounts]
  have hne2 : (exCounts.cycles : ℚ) ≠ 0 := by norm_num [exCounts]
  have hne3 : (exCounts.l1_cache_loads : ℚ) ≠ 0 := by norm_num [exCounts]
  have h := derived_metric_formulas exCounts
  exact ⟨⟨hne1, hne2, hne3⟩, h.1, h.2.1 hne1, h.2.2.1 hne2, h.2.2.2 hne3⟩

/-- The unrolled summation loop completes without an out-of-bounds access
exactly when the number of elements left to process is even. -/
theorem sum_unrolled_go_isSome (xs : List ℕ) (x : ℕ) :
    ∀ (n i s1 s2 : ℕ), xs.length - i = n →
      ((sum_unrolled_go xs x i s1 s2).isSome = true ↔ n % 2 = 0) := by
  intro n
  induction n using Nat.strong_induction_on with
  | _ n ih =>
    intro i s1 s2 hn
    rw [sum_unrolled_go]
    by_cases h : i < xs.length
    · rw [if_pos h]
      by_cases h2 : i + 1 < xs.length
      · rw [List.getElem?_eq_getElem h, List.getElem?_eq_getElem h2]
        have hrec := ih (n - 2) (by omega) (i + 2)
          ((s1 + (xs[i] &&& x)) % 256) ((s2 + (xs[i + 1] &&& x)) % 256)
          (by omega)
        rw [hrec]
        omega
      · rw [List.getElem?_eq_getElem h, List.getElem?_eq_none (by omega)]
        have hn1 : n = 1 := by omega
        simp [hn1]
    · rw [if_neg h]
      have hn0 : n = 0 := by omega
      simp [hn0]

/-- C9: `bench_sum_of_array_unrolled` performs only in-bounds accesses (no
panic) if and only if the slice length is even; on every odd-length slice
the last iteration reads index `len()`, which is out of bounds. -/
theorem sum_unrolled_inbounds_iff_even_length (xs : List ℕ) :
    (bench_sum_of_array_unrolled xs).isSome = true ↔ Even xs.length := by
  rw [bench_sum_of_array_unrolled, Option.isSome_map',
    sum_unrolled_go_isSome xs 3 xs.length 0 0 0 (by omega), Nat.even_iff]

/-- With a positive stride the loop index strictly increases, so
`xs.length + 1` iterations always suffice for the strided loop to exit. -/
theorem sum_stride_go_isSome (xs : List ℕ) (x stride : ℕ) (hs : 1 ≤ stride) :
    ∀ (fuel i s : ℕ), xs.length - i < fuel →
      (sum_stride_go xs x stride fuel i s).isSome = true := by
  intro fuel
  induction fuel with
  | zero => intro i s h; omega
  | succ fuel ih =>
    intro i s h
    rw [sum_stride_go]
    by_cases hi : i < xs.length
    · rw [if_pos hi]
      exact ih _ _ (by omega)
    · rw [if_neg hi]
      rfl

/-- With stride 0 and a nonempty array the loop index never changes, so the
loop never exits within any amount of fuel. -/
theorem sum_stride_go_zero_stride (xs : List ℕ) (x : ℕ) (hx : 0 < xs.length) :
    ∀ (fuel s : ℕ), sum_stride_go xs x 0 fuel 0 s = none := by
  intro fuel
  induction fuel with
  | zero => intro s; rfl
  | succ fuel ih =>
    intro s
    rw [sum_stride_go, if_pos hx]
    exact ih _

/-- C10: `bench_sum_of_array_with_stride` terminates for every stride ≥ 1
(fuel `xs.length + 1` suffices, since the index strictly increases each
iteration), while for stride = 0 on a nonempty array the loop never
terminates: no amount of fuel makes it produce a result. -/
theorem sum_with_stride_termination (xs : List ℕ) (stride fuel : ℕ) :
    (1 ≤ stride →
      (bench_sum_of_array_with_stride xs stride (xs.length + 1)).isSome = true)
    ∧ (stride = 0 → 0 < xs.length →
      bench_sum_of_array_with_stride xs stride fuel = none) := by
  constructor
  · intro hs
    exact sum_stride_go_isSome xs 3 stride hs _ 0 0 (by omega)
  · intro h0 hx
    subst h0
    exact sum_stride_go_zero_stride xs 3 hx fuel 0

/-- Witness for `sum_with_stride_termination`: on the two-element array
`[7, 7]`, stride 1 terminates within 3 iterations and stride 0 is still
running after 5 iterations of fuel. -/
theorem sum_with_stride_termination_witness :
    (1 ≤ 1 ∧ (bench_sum_of_array_with_stride [7, 7] 1 3).isSome = true)
    ∧ (0 = 0 ∧ 0 < 2
        ∧ bench_sum_of_array_with_stride [7, 7] 0 5 = none) := by
  refine ⟨⟨Nat.le_refl 1, ?_⟩, rfl, by decide, ?_⟩
  · exact (sum_with_stride_termination [7, 7] 1 3).1 (Nat.le_refl 1)
  · exact (sum_with_stride_termination [7, 7] 0 5).2 rfl (by decide)

end PrefetchBench
